import Mathlib

/-!
# Recorder workspace (gtk2_ardour/recorder_ui.cc): a shallow embedding

The C++ class `RecorderUI` is embedded as a record of the members its
handlers read and write, and every handler as a function on that record.

* `std::map<string, shared_ptr<InputPort>>` is a list of key/value pairs in
  key order, `std::set<string>` a list of names, `std::list<T*>` a list.
* Objects reached through pointers (`TrackRecordAxis*`, `shared_ptr<Route>`)
  are values; where two members point at the same objects
  (`_recorders`, `_visible_recorders`) a mutation is applied to both.
* Collaborators that live outside this file (the stripable sorter, the widget
  size requests, `TrackRecordAxis::rec_extent`, `max_samplepos`, the answer of
  the user and the session to the new track dialog) are fields of `Ext`;
  every handler takes it as its first argument when it needs one.
* A handler that dereferences `_input_ports[p]` for an absent `p` (a null
  `shared_ptr`) or a null `_session` returns `none`.
* `int`, `uint32_t` and `samplepos_t` are unbounded integers; no handler
  here computes a value that leaves the machine range on realistic input.
-/

namespace RecorderUI

/-- ARDOUR::DataType, as far as this file distinguishes it. -/
inductive DataType where
  | AUDIO
  | MIDI
  deriving DecidableEq, Repr

/-- Sample positions (`samplepos_t`, a signed 64 bit integer in the source). -/
abbrev samplepos_t := Int

/-- A route as seen through `shared_ptr<Route>`: identity, whether
`dynamic_pointer_cast<Track>` succeeds, `presentation_info ().hidden ()`,
and the port names for which `input ()->connected_to (p)` holds. -/
structure Route where
  id : Nat
  is_track : Bool
  hidden : Bool
  connections : List String
  deriving DecidableEq, Repr

/-- The call `r->input ()->connected_to (p)`. -/
def Route.connected_to (r : Route) (p : String) : Bool :=
  r.connections.contains p

/-- The session, as far as the handlers query it: `get_tracks ()`. -/
structure Session where
  get_tracks : List Route
  deriving DecidableEq, Repr

/-- A `TrackRecordAxis` widget: the route it was constructed for and the
last pair handed to `set_gui_extents` (`none` for a fresh widget). -/
structure TrackRecordAxis where
  route : Route
  gui_extents : Option (samplepos_t × samplepos_t)
  deriving DecidableEq, Repr

/-- The constructor call `new TrackRecordAxis (_session, *r)`. -/
def TrackRecordAxis.new (r : Route) : TrackRecordAxis :=
  { route := r, gui_extents := none }

/-- The call `(*i)->set_gui_extents (start, end)` on a recorder. -/
def TrackRecordAxis.set_gui_extents (i : TrackRecordAxis) (start stop : samplepos_t) :
    TrackRecordAxis :=
  { i with gui_extents := some (start, stop) }

/-- The two element sets the spill button is switched between in `set_cnt`. -/
inductive ButtonElements where
  | just_led_default_elements
  | edge_body
  deriving DecidableEq, Repr

/-- The members of `RecorderUI::InputPort` that the handlers touch. -/
structure InputPort where
  _dt : DataType
  _port_name : String
  _n_connections : Nat
  _spill_button_active : Bool
  _spill_button_elements : ButtonElements
  _connection_label : Nat
  deriving DecidableEq, Repr

/-- The members of `RecorderUI::RecRuler` written by `set_gui_extents`;
`draws` counts the `queue_draw ()` calls. -/
structure RecRuler where
  _left : samplepos_t
  _right : samplepos_t
  draws : Nat
  deriving DecidableEq, Repr

/-- What the user and the session answer inside `new_track_for_port`.
`cancelled`: `d.run ()` returns something else than `RESPONSE_OK` (line 811).
`failed`: `new_audio_track` or `new_midi_track` throws (lines 830, 847).
`created r route_added port_signal`: the session creates the track `r`;
`route_added` tells whether its `RouteAdded` signal reaches `add_routes`
(wired at line 280) before the call returns, and `port_signal` holds the two
port names of the `PortConnectedOrDisconnected` signal of the engine when
that signal reaches `port_connected_or_disconnected` (wired at line 176)
before the call returns. -/
inductive NewTrackReply where
  | cancelled
  | failed
  | created (r : Route) (route_added : Bool) (port_signal : Option (String × String))
  deriving DecidableEq, Repr

/-- Collaborators defined outside recorder_ui.cc.
`Sorter` is `Stripable::Sorter ()`, `SorterMixer` is `Stripable::Sorter (true)`,
`size_request` the width a meter widget requests from the toolkit (a pixel
count, never negative),
`rec_extent` is `TrackRecordAxis::rec_extent`, which is handed the two
members of the local pair `ext` ahead of every use of that pair and whose
result is discarded: it acts on the pair.  `max_samplepos` is the constant
of that name.  `new_track_reply` is what the dialog of `new_track_for_port`
and the session answer for a data type and a port name. -/
structure Ext where
  Sorter : Route → Route → Bool
  SorterMixer : Route → Route → Bool
  size_request : InputPort → Nat
  rec_extent : TrackRecordAxis → samplepos_t × samplepos_t → samplepos_t × samplepos_t
  max_samplepos : samplepos_t
  new_track_reply : DataType → String → NewTrackReply

end RecorderUI

/-- The members of `RecorderUI` that the handlers below read and write.
`_meter_table` lists the `attach` calls since the last `container_clear` as
(port name, column, row); `_meter_area_width` is `_meter_area.get_width ()`;
`resize_queued` counts `_meter_area.queue_resize ()`; `group_tabs_dirty`
counts `_rec_group_tabs->set_dirty ()`; `new_track_dialogs` lists the
dialogs that `new_track_for_port` has run; `_fast_screen_update_connection` tells
whether the meter timer is connected. -/
structure RecorderUI where
  _session : Option RecorderUI.Session
  _input_ports : List (String × RecorderUI.InputPort)
  _spill_port_names : List String
  _recorders : List RecorderUI.TrackRecordAxis
  _visible_recorders : List RecorderUI.TrackRecordAxis
  _meter_box_width : Int
  _meter_area_cols : Int
  _meter_area_width : Int
  _meter_table : List (String × Int × Int)
  _ruler : RecorderUI.RecRuler
  _fast_screen_update_connection : Bool
  resize_queued : Nat
  group_tabs_dirty : Nat
  new_track_dialogs : List (RecorderUI.DataType × String)
  deriving DecidableEq, Repr

namespace RecorderUI

/-! ## Standard containers -/

/-- The order of `std::string`: lexicographic on the characters. -/
def name_lt (a b : String) : Prop := a.data < b.data

instance name_lt_decidable : DecidableRel name_lt := fun a b =>
  inferInstanceAs (Decidable (a.data < b.data))

/-- The lookup `m.find (k)` of a `std::map`: the value, or `none` for `end ()`. -/
def map_find {β : Type} : List (String × β) → String → Option β
  | [], _ => none
  | (k', v) :: rest, k => if k' = k then some v else map_find rest k

/-- The assignment `m[k] = v` of a `std::map`: overwrite the entry of `k`,
or insert one at its place in key order. -/
def map_set {β : Type} : List (String × β) → String → β → List (String × β)
  | [], k, v => [(k, v)]
  | (k', v') :: rest, k, v =>
      if k' = k then (k, v) :: rest
      else if name_lt k k' then (k, v) :: (k', v') :: rest
      else (k', v') :: map_set rest k v

/-- A mutation `f` of the object the entry of `k` points at. -/
def map_modify {β : Type} (f : β → β) : List (String × β) → String → List (String × β)
  | [], _ => []
  | (k', v) :: rest, k =>
      if k' = k then (k', f v) :: rest else (k', v) :: map_modify f rest k

/-- The call `s.insert (p)` of a `std::set<string>`: the new set and
`rv.second`, which tells whether `p` was newly inserted. -/
def set_insert (s : List String) (p : String) : List String × Bool :=
  if p ∈ s then (s, false)
  else (List.orderedInsert (fun a b => ¬ name_lt b a) p s, true)

/-- The call `s.erase (p)` of a `std::set<string>`: the new set and the
number of elements removed. -/
def set_erase (s : List String) (p : String) : List String × Nat :=
  if p ∈ s then (s.filter (fun q => q ≠ p), 1) else (s, 0)

/-- The call `l.sort (comp)` of a `std::list`: a stable sort.  Every element
is placed behind the elements that compare less than it, and elements that
compare equivalent keep the order they had. -/
def list_sort {α : Type} (comp : α → α → Bool) (l : List α) : List α :=
  l.insertionSort (fun a b => comp b a = false)

/-! ## calc_columns -/

/-- Lines 463-476.  `/` on `int` truncates, `&` is the bitwise and. -/
def calc_columns (child_width parent_width : Int) : Int :=
  let n_col := Int.tdiv parent_width child_width
  if n_col ≤ 2 then
    2
  else if n_col ≤ 4 then
    n_col
  else
    Int.land n_col 1

/-! ## InputPort -/

/-- The constructor `InputPort (name, dt, parent)` (lines 895-904): no
connections, a spill button that is not active and shows the led elements,
a connection label "0". -/
def InputPort.new (name : String) (dt : DataType) : InputPort :=
  { _dt := dt
    _port_name := name
    _n_connections := 0
    _spill_button_active := false
    _spill_button_elements := ButtonElements.just_led_default_elements
    _connection_label := 0 }

/-- Lines 986-999. -/
def InputPort.set_cnt (ip : InputPort) (cnt : Nat) : InputPort :=
  let ip1 := { ip with _n_connections := cnt, _connection_label := cnt }
  if cnt > 0 then
    { ip1 with _spill_button_elements := ButtonElements.just_led_default_elements }
  else
    { ip1 with _spill_button_elements := ButtonElements.edge_body }

/-- Lines 1043-1061: the port after the call, and the returned `act`. -/
def InputPort.spill (ip : InputPort) (en : Bool) : InputPort × Bool :=
  let active := ip._spill_button_active
  let act := active
  let act := if !en then false else act
  let act := if ip._n_connections = 0 then false else act
  let ip1 := if active ≠ act then { ip with _spill_button_active := act } else ip
  (ip1, act)

/-- Lines 1063-1067. -/
def InputPort.spilled (ip : InputPort) : Bool :=
  ip._spill_button_active

/-- Lines 1075-1079. -/
def InputPort.data_type (ip : InputPort) : DataType :=
  ip._dt

/-! ## The track list -/

/-- Lines 666-673: recorders are compared through their stripables. -/
def TrackRecordAxisSorter (E : Ext) (ca cb : TrackRecordAxis) : Bool :=
  E.SorterMixer ca.route cb.route

/-- Lines 710-715: the loop over `_spill_port_names` with its `break`. -/
def spill_connected (r : Route) : List String → Bool
  | [] => false
  | j :: rest => if r.connected_to j then true else spill_connected r rest

/-- Lines 699-731: the loop over the sorted `_recorders`; the second
argument is `_visible_recorders` as built so far.  The calls into
`_rec_area` (remove, pack_start, reorder_child) and `show ()` act on the
toolkit only. -/
def rec_table_loop (spill : List String) :
    List TrackRecordAxis → List TrackRecordAxis → List TrackRecordAxis
  | [], visible => visible
  | i :: rest, visible =>
      if i.route.hidden then
        rec_table_loop spill rest visible
      else if !spill.isEmpty && !spill_connected i.route spill then
        rec_table_loop spill rest visible
      else
        rec_table_loop spill rest (visible ++ [i])

end RecorderUI

/-- Lines 692-734. -/
def RecorderUI.update_rec_table_layout (E : RecorderUI.Ext) (s : RecorderUI) : RecorderUI :=
  let recorders := RecorderUI.list_sort (RecorderUI.TrackRecordAxisSorter E) s._recorders
  { s with
    _recorders := recorders
    _visible_recorders := RecorderUI.rec_table_loop s._spill_port_names recorders []
    group_tabs_dirty := s.group_tabs_dirty + 1 }

/-- Lines 635-650: `rl` is sorted, one recorder is appended per track, the
table is laid out again. -/
def RecorderUI.add_routes (E : RecorderUI.Ext) (s : RecorderUI) (rl : List RecorderUI.Route) :
    RecorderUI :=
  let rl1 := RecorderUI.list_sort E.Sorter rl
  let recorders := rl1.foldl
    (fun acc r => if !r.is_track then acc else acc ++ [RecorderUI.TrackRecordAxis.new r])
    s._recorders
  RecorderUI.update_rec_table_layout E { s with _recorders := recorders }

/-- Lines 626-633; `_session` is dereferenced without a test. -/
def RecorderUI.initial_track_display (E : RecorderUI.Ext) (s : RecorderUI) : Option RecorderUI :=
  match s._session with
  | none => none
  | some session =>
      let rl := session.get_tracks
      some (RecorderUI.add_routes E { s with _recorders := [] } rl)

/-! ## Extents -/

/-- Lines 1093-1102. -/
def RecorderUI.RecRuler.set_gui_extents (r : RecorderUI.RecRuler)
    (start stop : RecorderUI.samplepos_t) : RecorderUI.RecRuler :=
  if r._left = start ∧ r._right = stop then
    r
  else
    { r with _left := start, _right := stop, draws := r.draws + 1 }

/-- Lines 553-570; `ext` is the result of
`PublicEditor::instance ().session_gui_extents ()`.  The first loop hands
the pair to `rec_extent` of every recorder in turn; the recorders in
`_visible_recorders` are the same objects as those in `_recorders`. -/
def RecorderUI.gui_extents_changed (E : RecorderUI.Ext) (s : RecorderUI)
    (ext : RecorderUI.samplepos_t × RecorderUI.samplepos_t) : RecorderUI :=
  if ext.1 = E.max_samplepos ∨ ext.1 ≥ ext.2 then
    s
  else
    let ext1 := s._recorders.foldl (fun e i => E.rec_extent i e) ext
    { s with
      _ruler := s._ruler.set_gui_extents ext1.1 ext1.2
      _recorders := s._recorders.map (fun i => i.set_gui_extents ext1.1 ext1.2)
      _visible_recorders := s._visible_recorders.map (fun i => i.set_gui_extents ext1.1 ext1.2) }

/-! ## Input ports and meters -/

/-- Lines 388-394. -/
def RecorderUI.stop_updating (s : RecorderUI) : RecorderUI :=
  { s with _fast_screen_update_connection := false, _meter_table := [], _input_ports := [] }

/-- Lines 572-600.  `cnt` counts the tracks whose input is connected to `p`. -/
def RecorderUI.set_connection_count (E : RecorderUI.Ext) (s : RecorderUI) (p : String) :
    Option RecorderUI :=
  match s._session with
  | none => some s
  | some session =>
      let cnt := session.get_tracks.countP (fun r => r.connected_to p)
      match RecorderUI.map_find s._input_ports p with
      | none => none
      | some _ =>
          let s1 := { s with
            _input_ports := RecorderUI.map_modify (fun ip => ip.set_cnt cnt) s._input_ports p }
          if !s1._spill_port_names.isEmpty then
            let s2 := { s1 with
              _input_ports := s1._input_ports.map (fun e => (e.1, (e.2.spill false).1))
              _spill_port_names := [] }
            some (RecorderUI.update_rec_table_layout E s2)
          else
            some s1

/-- The locals of the loop in `meter_area_layout`, together with the two
members it writes. -/
structure RecorderUI.MeterLoop where
  resize : Bool
  N_COL : Int
  col : Int
  row : Int
  box_width : Int
  table : List (String × Int × Int)
  deriving DecidableEq, Repr

/-- Lines 488-507: one pass of the loop body per entry of `_input_ports`. -/
def RecorderUI.meter_area_loop (E : RecorderUI.Ext) (area_width : Int) :
    List (String × RecorderUI.InputPort) → RecorderUI.MeterLoop → RecorderUI.MeterLoop
  | [], st => st
  | (name, ip) :: rest, st =>
      let table := st.table ++ [(name, st.col, st.row)]
      let r_width : Int := E.size_request ip
      let changed : Bool := st.box_width ≠ r_width + 6
      let box_width := if changed then r_width + 6 else st.box_width
      let resize := if changed then true else st.resize
      let N_COL := if st.N_COL < 0 then RecorderUI.calc_columns box_width area_width else st.N_COL
      let col := st.col + 1
      if col ≥ N_COL then
        RecorderUI.meter_area_loop E area_width rest
          { resize := resize, N_COL := N_COL, col := 0, row := st.row + 1
            box_width := box_width, table := table }
      else
        RecorderUI.meter_area_loop E area_width rest
          { resize := resize, N_COL := N_COL, col := col, row := st.row
            box_width := box_width, table := table }

/-- Lines 478-515. -/
def RecorderUI.meter_area_layout (E : RecorderUI.Ext) (s : RecorderUI) : RecorderUI :=
  let st := RecorderUI.meter_area_loop E s._meter_area_width s._input_ports
    { resize := false, N_COL := -1, col := 0, row := 0
      box_width := s._meter_box_width, table := [] }
  { s with
    _meter_table := st.table
    _meter_box_width := st.box_width
    _meter_area_cols := if st.N_COL > 0 then st.N_COL else s._meter_area_cols
    resize_queued := if st.resize then s.resize_queued + 1 else s.resize_queued }

/-- Lines 370-373 and 377-380: one entry per engine port of type `dt`, each
followed by `set_connection_count`. -/
def RecorderUI.add_input_ports (E : RecorderUI.Ext) (dt : RecorderUI.DataType) :
    List String → RecorderUI → Option RecorderUI
  | [], s => some s
  | name :: rest, s =>
      let s1 := { s with
        _input_ports := RecorderUI.map_set s._input_ports name (RecorderUI.InputPort.new name dt) }
      match RecorderUI.set_connection_count E s1 name with
      | none => none
      | some s2 => RecorderUI.add_input_ports E dt rest s2

/-- Lines 360-386; `aip` and `mip` are the names of the audio and MIDI input
ports the engine reports, in the order of its maps. -/
def RecorderUI.start_updating (E : RecorderUI.Ext) (s : RecorderUI) (aip mip : List String) :
    Option RecorderUI :=
  let s0 := if s._input_ports.length ≠ 0 then s.stop_updating else s
  match RecorderUI.add_input_ports E RecorderUI.DataType.AUDIO aip s0 with
  | none => none
  | some s1 =>
      match RecorderUI.add_input_ports E RecorderUI.DataType.MIDI mip s1 with
      | none => none
      | some s2 =>
          some { RecorderUI.meter_area_layout E s2 with _fast_screen_update_connection := true }

/-! ## Spill and new tracks -/

/-- Lines 534-543. -/
def RecorderUI.port_connected_or_disconnected (E : RecorderUI.Ext) (s : RecorderUI)
    (p1 p2 : String) : Option RecorderUI :=
  let r1 :=
    if (RecorderUI.map_find s._input_ports p1).isSome then
      RecorderUI.set_connection_count E s p1
    else
      some s
  match r1 with
  | none => none
  | some s1 =>
      if (RecorderUI.map_find s1._input_ports p2).isSome then
        RecorderUI.set_connection_count E s1 p2
      else
        some s1

/-- The call `r->input ()->audio (0)->connect (port_name)` (line 835; line 851
for MIDI): the route object with the id of `r` is connected to `port_name`,
in the session and in the recorders that point at it. -/
def RecorderUI.connect_route (s : RecorderUI) (r : RecorderUI.Route) (port_name : String) :
    RecorderUI :=
  let connect : RecorderUI.Route → RecorderUI.Route := fun x =>
    if x.id = r.id then { x with connections := port_name :: x.connections } else x
  { s with
    _session := s._session.map (fun session =>
      { session with get_tracks := session.get_tracks.map connect })
    _recorders := s._recorders.map (fun i => { i with route := connect i.route })
    _visible_recorders := s._visible_recorders.map (fun i => { i with route := connect i.route }) }

/-- Lines 825-853 when the session creates the track `r0`: the track is a
`Track` and joins `get_tracks ()`; `add_routes` runs on it when `RouteAdded`
arrives in time; then its first input is connected to `port_name`. -/
def RecorderUI.track_created (E : RecorderUI.Ext) (s : RecorderUI)
    (session : RecorderUI.Session) (r0 : RecorderUI.Route) (route_added : Bool)
    (port_name : String) : RecorderUI :=
  let r := { r0 with is_track := true }
  let s1 := { s with
    _session := some { session with get_tracks := session.get_tracks ++ [r] } }
  let s2 := if route_added then RecorderUI.add_routes E s1 [r] else s1
  s2.connect_route r port_name

/-- Lines 749-854.  The dialog is run and recorded in `new_track_dialogs`.
When it is not confirmed the call returns (line 811).  Otherwise `_session`
is dereferenced (line 821) and asked for an audio or a MIDI track according
to `dt`; when the session throws the call returns (lines 830, 847).  The
track the session creates is a `Track`, joins `get_tracks ()`, is announced
with `RouteAdded`, and its first input is connected to `port_name`.  The
two handlers this file wires to the signals run inside the call as far as
the reply says that the signals arrive in time. -/
def RecorderUI.new_track_for_port (E : RecorderUI.Ext) (s : RecorderUI)
    (dt : RecorderUI.DataType) (port_name : String) : Option RecorderUI :=
  let s0 := { s with new_track_dialogs := s.new_track_dialogs ++ [(dt, port_name)] }
  match E.new_track_reply dt port_name with
  | RecorderUI.NewTrackReply.cancelled => some s0
  | RecorderUI.NewTrackReply.failed =>
      match s0._session with
      | none => none
      | some _ => some s0
  | RecorderUI.NewTrackReply.created r0 route_added port_signal =>
      match s0._session with
      | none => none
      | some session =>
          let s3 := RecorderUI.track_created E s0 session r0 route_added port_name
          match port_signal with
          | none => some s3
          | some names => RecorderUI.port_connected_or_disconnected E s3 names.1 names.2

/-- Lines 614-623: the part of `spill_port` behind the early return. -/
def RecorderUI.spill_port_update (E : RecorderUI.Ext) (s : RecorderUI) (p : String)
    (ok : Bool) : RecorderUI :=
  let rv : List String × Bool :=
    if ok then
      RecorderUI.set_insert s._spill_port_names p
    else
      let er := RecorderUI.set_erase s._spill_port_names p
      (er.1, decide (0 ≠ er.2))
  let s1 := { s with _spill_port_names := rv.1 }
  if rv.2 then RecorderUI.update_rec_table_layout E s1 else s1

/-- Lines 602-624. -/
def RecorderUI.spill_port (E : RecorderUI.Ext) (s : RecorderUI) (p : String) :
    Option RecorderUI :=
  match RecorderUI.map_find s._input_ports p with
  | none => none
  | some ip =>
      if ip.spilled then
        let r := ip.spill true
        let s1 := { s with
          _input_ports := RecorderUI.map_modify (fun ip => (ip.spill true).1) s._input_ports p }
        if !r.2 then
          s1.new_track_for_port E r.1.data_type p
        else
          some (RecorderUI.spill_port_update E s1 p r.2)
      else
        some (RecorderUI.spill_port_update E s p false)

/-- Lines 872-876: the body holds a comment only. -/
def RecorderUI.new_take (s : RecorderUI) : RecorderUI :=
  s

/-! ## Presentation order -/

/-- The properties a `PBD::PropertyChange` is asked for in this file;
`other` stands for every property the handlers do not look at. -/
inductive RecorderUI.Property where
  | hidden
  | order
  | other (id : Nat)
  deriving DecidableEq, Repr

/-- Lines 675-690; `what_changed.contains (p)` is membership of `p`.  The
local `rec` of the source is `rec0`. -/
def RecorderUI.presentation_info_changed (E : RecorderUI.Ext) (s : RecorderUI)
    (what_changed : List RecorderUI.Property) : RecorderUI :=
  if what_changed.contains RecorderUI.Property.hidden then
    RecorderUI.update_rec_table_layout E s
  else if what_changed.contains RecorderUI.Property.order then
    let rec0 := s._recorders
    let s1 := { s with
      _recorders := RecorderUI.list_sort (RecorderUI.TrackRecordAxisSorter E) s._recorders }
    if s1._recorders ≠ rec0 then RecorderUI.update_rec_table_layout E s1 else s1
  else
    s

/-! ## The ruler -/

/-- What `RecRuler::render` reaches: the early return, a division by zero
(undefined in the source), or the grid it goes on to draw the labels on. -/
inductive RecorderUI.RenderOutcome where
  | nothing
  | division_by_zero
  | grid (n_labels : Int) (time_granularity : RecorderUI.samplepos_t)
      (lower : RecorderUI.samplepos_t)
  deriving DecidableEq, Repr

/-- Line 1117: `floor (width / (_time_width * 1.5))`, in exact arithmetic
(the source computes the quotient in double precision). -/
def RecorderUI.RecRuler.n_labels (width _time_width : Int) : Int :=
  Int.floor ((width : ℚ) / ((_time_width : ℚ) * 1.5))

/-- Line 1119: `ceil (time_span / n_labels / sample_rate) * sample_rate`.
The two divisions are divisions of integers and truncate; `ceil` is handed
their integer result. -/
def RecorderUI.RecRuler.time_granularity (time_span n_labels sample_rate : Int) : Int :=
  Int.ceil ((((time_span.tdiv n_labels).tdiv sample_rate : Int) : ℚ)) * sample_rate

/-- Lines 1104-1122: `render` up to the local `lower`.  `sample_rate` is
`_session->sample_rate ()`, or `none` without a session; `width` is
`get_width ()`; `_time_width` is the pixel width of a label, measured in
the constructor.  The loop behind it draws the labels through the toolkit. -/
def RecorderUI.RecRuler.render (r : RecorderUI.RecRuler) (sample_rate : Option Int)
    (width _time_width : Int) : RecorderUI.RenderOutcome :=
  match sample_rate with
  | none => RecorderUI.RenderOutcome.nothing
  | some rate =>
      if r._left ≥ r._right then
        RecorderUI.RenderOutcome.nothing
      else
        let n_labels := RecorderUI.RecRuler.n_labels width _time_width
        let time_span := r._right - r._left
        if n_labels = 0 ∨ rate = 0 then
          RecorderUI.RenderOutcome.division_by_zero
        else
          let time_granularity := RecorderUI.RecRuler.time_granularity time_span n_labels rate
          if time_granularity = 0 then
            RecorderUI.RenderOutcome.division_by_zero
          else
            RecorderUI.RenderOutcome.grid n_labels time_granularity
              ((r._left.tdiv time_granularity) * time_granularity)

/-! ## Meter updates -/

/-- One call of an overload of `InputPort::update` on the entry of a port:
the scope buffer, the level and peak, the MIDI channel activity, the MIDI
event buffer.  Each of them forwards to the monitor widget. -/
inductive RecorderUI.MeterUpdate where
  | scope (port : String)
  | level (port : String)
  | midi_activity (port : String)
  | midi_events (port : String)
  deriving DecidableEq, Repr

/-- Lines 428-433 and 439-444: a loop over the audio ports of the engine;
a port for which `find` returns `end ()` is skipped. -/
def RecorderUI.audio_meter_loop (kind : String → RecorderUI.MeterUpdate)
    (ports : List (String × RecorderUI.InputPort)) : List String → List RecorderUI.MeterUpdate
  | [] => []
  | name :: rest =>
      match RecorderUI.map_find ports name with
      | some _ => kind name :: RecorderUI.audio_meter_loop kind ports rest
      | none => RecorderUI.audio_meter_loop kind ports rest

/-- Lines 446-451: the loop over the MIDI ports of the engine; the result of
`find` is dereferenced without a test, `none` when it is `end ()`. -/
def RecorderUI.midi_meter_loop (ports : List (String × RecorderUI.InputPort)) :
    List String → Option (List RecorderUI.MeterUpdate)
  | [] => some []
  | name :: rest =>
      match RecorderUI.map_find ports name with
      | none => none
      | some _ =>
          match RecorderUI.midi_meter_loop ports rest with
          | none => none
          | some updates =>
              some (RecorderUI.MeterUpdate.midi_activity name
                :: RecorderUI.MeterUpdate.midi_events name :: updates)

/-- Lines 422-461; `aip` and `mip` are the names of the audio and MIDI input
ports the engine reports, `is_mapped` is `contents ().is_mapped ()`,
`actively_recording` is `_session->actively_recording ()`, `ext` is what
`session_gui_extents ()` would return.  The result is the new state and the
`InputPort::update` calls made, in order; `fast_update ()` of the recorders
acts on the toolkit only. -/
def RecorderUI.update_meters (E : RecorderUI.Ext) (s : RecorderUI) (aip mip : List String)
    (is_mapped actively_recording : Bool)
    (ext : RecorderUI.samplepos_t × RecorderUI.samplepos_t) :
    Option (RecorderUI × List RecorderUI.MeterUpdate) :=
  let scopes := RecorderUI.audio_meter_loop RecorderUI.MeterUpdate.scope s._input_ports aip
  if !is_mapped then
    some (s, scopes)
  else
    let levels := RecorderUI.audio_meter_loop RecorderUI.MeterUpdate.level s._input_ports aip
    match RecorderUI.midi_meter_loop s._input_ports mip with
    | none => none
    | some midi =>
        let s1 := if s._session.isSome && actively_recording then
          RecorderUI.gui_extents_changed E s ext else s
        some (s1, scopes ++ levels ++ midi)

/-! ## Concrete inputs -/

/-- Collaborators of the concrete runs: routes are ordered by id, every meter
widget requests 100 pixels, every recorder shows a captured region over
the samples 3 to 20, to which `rec_extent` widens the pair it is handed, and
the user cancels the dialog of `new_track_for_port`. -/
def demo_ext : RecorderUI.Ext where
  Sorter := fun a b => decide (a.id < b.id)
  SorterMixer := fun a b => decide (a.id < b.id)
  size_request := fun _ => 100
  rec_extent := fun _ e => (min e.1 3, max e.2 20)
  max_samplepos := 9223372036854775807
  new_track_reply := fun _ _ => RecorderUI.NewTrackReply.cancelled

/-- The same collaborators, with recorders that hold no captured region:
`rec_extent` leaves the pair as it is. -/
def demo_ext_plain : RecorderUI.Ext :=
  { demo_ext with rec_extent := fun _ e => e }

/-- An audio track fed from the port in1. -/
def demo_route1 : RecorderUI.Route :=
  { id := 1, is_track := true, hidden := false, connections := ["in1"] }

/-- An audio track fed from the port in2. -/
def demo_route4 : RecorderUI.Route :=
  { id := 4, is_track := true, hidden := false, connections := ["in2"] }

/-- The port in0: no track is connected, the spill button was just pressed. -/
def demo_in0 : RecorderUI.InputPort :=
  { _dt := RecorderUI.DataType.AUDIO
    _port_name := "in0"
    _n_connections := 0
    _spill_button_active := true
    _spill_button_elements := RecorderUI.ButtonElements.edge_body
    _connection_label := 0 }

/-- The port in1: one track is connected, the spill button is not active. -/
def demo_in1 : RecorderUI.InputPort :=
  { _dt := RecorderUI.DataType.MIDI
    _port_name := "in1"
    _n_connections := 1
    _spill_button_active := false
    _spill_button_elements := RecorderUI.ButtonElements.just_led_default_elements
    _connection_label := 1 }

/-- The port in2: one track is connected, the spill button was just pressed. -/
def demo_in2 : RecorderUI.InputPort :=
  { _dt := RecorderUI.DataType.AUDIO
    _port_name := "in2"
    _n_connections := 1
    _spill_button_active := true
    _spill_button_elements := RecorderUI.ButtonElements.just_led_default_elements
    _connection_label := 1 }

/-- A recorder window with two tracks and three input ports, 350 pixels wide. -/
def demo_state : RecorderUI where
  _session := some { get_tracks := [demo_route1, demo_route4] }
  _input_ports := [("in0", demo_in0), ("in1", demo_in1), ("in2", demo_in2)]
  _spill_port_names := []
  _recorders := [RecorderUI.TrackRecordAxis.new demo_route1,
    RecorderUI.TrackRecordAxis.new demo_route4]
  _visible_recorders := [RecorderUI.TrackRecordAxis.new demo_route1,
    RecorderUI.TrackRecordAxis.new demo_route4]
  _meter_box_width := 106
  _meter_area_cols := 3
  _meter_area_width := 350
  _meter_table := [("in0", 0, 0), ("in1", 1, 0), ("in2", 2, 0)]
  _ruler := { _left := 0, _right := 0, draws := 0 }
  _fast_screen_update_connection := true
  resize_queued := 0
  group_tabs_dirty := 1
  new_track_dialogs := []

/-- The window of `demo_state` with its two recorders in the other order. -/
def demo_state_swapped : RecorderUI :=
  { demo_state with
    _recorders := [RecorderUI.TrackRecordAxis.new demo_route4,
      RecorderUI.TrackRecordAxis.new demo_route1] }

/-- A ruler over the first second of a session. -/
def demo_ruler : RecorderUI.RecRuler :=
  { _left := 0, _right := 48000, draws := 0 }

namespace RecorderUI

/-! ## Containers -/

theorem map_find_map_set {β : Type} (m : List (String × β)) (k : String) (v : β) (k0 : String) :
    map_find (map_set m k v) k0 = if k0 = k then some v else map_find m k0 := by
  induction m with
  | nil =>
      by_cases h : k0 = k
      · simp [map_set, map_find, h]
      · have h2 : ¬ k = k0 := fun e => h e.symm
        simp [map_set, map_find, h, h2]
  | cons e rest ih =>
      obtain ⟨k1, v1⟩ := e
      unfold map_set
      by_cases h1 : k1 = k
      · subst h1
        by_cases h : k0 = k1
        · simp [map_find, h]
        · have h2 : ¬ k1 = k0 := fun e => h e.symm
          simp [map_find, h, h2]
      · simp only [h1, if_false]
        by_cases hlt : name_lt k k1
        · simp only [hlt, if_true]
          by_cases h : k0 = k
          · simp [map_find, h]
          · have h2 : ¬ k = k0 := fun e => h e.symm
            simp [map_find, h, h2]
        · simp only [hlt, if_false]
          by_cases h : k0 = k
          · subst h
            simp [map_find, h1, ih]
          · by_cases h3 : k1 = k0
            · simp [map_find, h3, h]
            · simp [map_find, h3, h, ih]

theorem map_find_map_modify {β : Type} (f : β → β) (m : List (String × β)) (k k0 : String) :
    map_find (map_modify f m k) k0
      = if k0 = k then (map_find m k0).map f else map_find m k0 := by
  induction m with
  | nil => simp [map_modify, map_find]
  | cons e rest ih =>
      obtain ⟨k1, v1⟩ := e
      unfold map_modify
      by_cases h1 : k1 = k
      · subst h1
        by_cases h : k0 = k1
        · subst h
          simp [map_find]
        · have h2 : ¬ k1 = k0 := fun e => h e.symm
          simp [map_find, h, h2]
      · simp only [h1, if_false]
        by_cases h3 : k1 = k0
        · have h4 : ¬ k0 = k := fun e => h1 (h3.trans e)
          simp [map_find, h3, h4]
        · simp [map_find, h3, ih]

theorem map_find_map_values {β : Type} (g : β → β) (m : List (String × β)) (k0 : String) :
    map_find (m.map (fun e => (e.1, g e.2))) k0 = (map_find m k0).map g := by
  induction m with
  | nil => simp [map_find]
  | cons e rest ih =>
      obtain ⟨k1, v1⟩ := e
      by_cases h3 : k1 = k0
      · simp [map_find, h3]
      · simp [map_find, h3, ih]

theorem mem_keys_iff_map_find {β : Type} (m : List (String × β)) (k0 : String) :
    k0 ∈ m.map Prod.fst ↔ ∃ v, map_find m k0 = some v := by
  induction m with
  | nil => simp [map_find]
  | cons e rest ih =>
      obtain ⟨k1, v1⟩ := e
      by_cases h3 : k1 = k0
      · simp [map_find, h3]
      · have h4 : ¬ k0 = k1 := fun e => h3 e.symm
        simp only [List.map_cons, List.mem_cons, h4, false_or, map_find, h3, if_false]
        exact ih

theorem map_modify_fixed {β : Type} (f : β → β) (m : List (String × β)) (k : String) (v : β)
    (hk : map_find m k = some v) (hf : f v = v) : map_modify f m k = m := by
  induction m with
  | nil => rfl
  | cons e rest ih =>
      obtain ⟨k1, v1⟩ := e
      unfold map_modify
      by_cases h1 : k1 = k
      · simp only [map_find, h1, if_true, Option.some.injEq] at hk
        subst hk
        simp [h1, hf]
      · simp only [map_find, h1, if_false] at hk
        simp [h1, ih hk]

theorem mem_set_insert (l : List String) (p q : String) :
    q ∈ (set_insert l p).1 ↔ q = p ∨ q ∈ l := by
  unfold set_insert
  split
  · next h =>
    constructor
    · exact Or.inr
    · rintro (rfl | h2)
      · exact h
      · exact h2
  · exact List.mem_orderedInsert _

theorem set_insert_new (l : List String) (p : String) :
    (set_insert l p).2 = true ↔ p ∉ l := by
  unfold set_insert
  split <;> simp [*]

theorem mem_set_erase (l : List String) (p q : String) :
    q ∈ (set_erase l p).1 ↔ q ≠ p ∧ q ∈ l := by
  unfold set_erase
  split
  · simp [List.mem_filter, and_comm]
  · next h =>
    constructor
    · intro hq
      exact ⟨fun e => h (e ▸ hq), hq⟩
    · exact fun hq => hq.2

theorem set_erase_count (l : List String) (p : String) :
    0 ≠ (set_erase l p).2 ↔ p ∈ l := by
  unfold set_erase
  split <;> simp [*]

theorem list_sort_perm {α : Type} (comp : α → α → Bool) (l : List α) :
    (list_sort comp l).Perm l :=
  List.perm_insertionSort _ l

/-! ## The track list -/

theorem add_routes_foldl (rl : List Route) (acc : List TrackRecordAxis) :
    rl.foldl (fun acc r => if !r.is_track then acc else acc ++ [TrackRecordAxis.new r]) acc
      = acc ++ (rl.filter (fun r => r.is_track)).map TrackRecordAxis.new := by
  induction rl generalizing acc with
  | nil => simp
  | cons r rest ih =>
      rw [List.foldl_cons, ih]
      cases h : r.is_track <;> simp [h, List.filter_cons]

/-! ## Input ports -/

theorem set_cnt_dt_name (ip : InputPort) (cnt : Nat) :
    (ip.set_cnt cnt)._dt = ip._dt ∧ (ip.set_cnt cnt)._port_name = ip._port_name := by
  unfold InputPort.set_cnt
  split <;> exact ⟨rfl, rfl⟩

theorem spill_dt_name (ip : InputPort) (en : Bool) :
    (ip.spill en).1._dt = ip._dt ∧ (ip.spill en).1._port_name = ip._port_name := by
  simp only [InputPort.spill]
  split_ifs <;> exact ⟨rfl, rfl⟩

theorem update_rec_table_layout_input_ports (E : Ext) (s : RecorderUI) :
    (s.update_rec_table_layout E)._input_ports = s._input_ports := rfl

/-- `set_connection_count` succeeds for a port that is in the map, and keeps
the key, the data type and the name of every entry. -/
theorem set_connection_count_keeps (E : Ext) (s : RecorderUI) (p : String) (ip : InputPort)
    (hp : map_find s._input_ports p = some ip) :
    ∃ s1, s.set_connection_count E p = some s1 ∧
      ∀ k, (map_find s1._input_ports k).map (fun ip => (ip._dt, ip._port_name))
        = (map_find s._input_ports k).map (fun ip => (ip._dt, ip._port_name)) := by
  unfold RecorderUI.set_connection_count
  cases hs : s._session with
  | none => exact ⟨s, rfl, fun _ => rfl⟩
  | some session =>
      simp only [hp]
      have hmod : ∀ (cnt : Nat) (k : String),
          (map_find (map_modify (fun ip => ip.set_cnt cnt) s._input_ports p) k).map
              (fun ip => (ip._dt, ip._port_name))
            = (map_find s._input_ports k).map (fun ip => (ip._dt, ip._port_name)) := by
        intro cnt k
        rw [map_find_map_modify]
        split
        · cases map_find s._input_ports k with
          | none => rfl
          | some v => simp [(set_cnt_dt_name v cnt).1, (set_cnt_dt_name v cnt).2]
        · rfl
      split
      · refine ⟨_, rfl, ?_⟩
        intro k
        rw [update_rec_table_layout_input_ports]
        simp only
        rw [map_find_map_values (fun (ip : InputPort) => (ip.spill false).1), ← hmod (List.countP (fun r => r.connected_to p) session.get_tracks) k]
        cases map_find (map_modify (fun ip => ip.set_cnt
            (List.countP (fun r => r.connected_to p) session.get_tracks)) s._input_ports p) k with
        | none => rfl
        | some v => simp [(spill_dt_name v false).1, (spill_dt_name v false).2]
      · exact ⟨_, rfl, hmod _⟩

theorem add_input_ports_keeps (E : Ext) (dt : DataType) (names : List String) (s : RecorderUI) :
    ∃ s1, RecorderUI.add_input_ports E dt names s = some s1 ∧
      ∀ k, (map_find s1._input_ports k).map (fun ip => (ip._dt, ip._port_name))
        = if k ∈ names then some (dt, k)
          else (map_find s._input_ports k).map (fun ip => (ip._dt, ip._port_name)) := by
  induction names generalizing s with
  | nil => exact ⟨s, rfl, fun k => by simp⟩
  | cons name rest ih =>
      unfold RecorderUI.add_input_ports
      have hfind : map_find
          (map_set s._input_ports name (InputPort.new name dt)) name
            = some (InputPort.new name dt) := by
        rw [map_find_map_set]; simp
      obtain ⟨s2, hs2, hview2⟩ := set_connection_count_keeps E
        { s with _input_ports := map_set s._input_ports name (InputPort.new name dt) }
        name _ hfind
      obtain ⟨s3, hs3, hview3⟩ := ih s2
      refine ⟨s3, ?_, ?_⟩
      · simp only [hs2]
        exact hs3
      · intro k
        rw [hview3 k, hview2 k]
        simp only
        rw [map_find_map_set]
        by_cases hk : k ∈ rest
        · simp [hk]
        · by_cases hkn : k = name
          · subst hkn
            simp [hk, InputPort.new]
          · simp [hk, hkn]

/-! ## The meter table -/

theorem next_cell (k : Nat) (N : Int) (hN : 1 ≤ N) :
    (((k : Int) % N + 1 ≥ N) →
        ((k + 1 : Nat) : Int) % N = 0 ∧ ((k + 1 : Nat) : Int) / N = (k : Int) / N + 1)
    ∧ (¬ ((k : Int) % N + 1 ≥ N) →
        ((k + 1 : Nat) : Int) % N = (k : Int) % N + 1 ∧ ((k + 1 : Nat) : Int) / N = (k : Int) / N) := by
  have hpos : 0 < N := by omega
  have hsplit : (k : Int) % N + N * ((k : Int) / N) = k := Int.emod_add_ediv _ _
  have hr0 : 0 ≤ (k : Int) % N := Int.emod_nonneg _ (by omega)
  have hr1 : (k : Int) % N < N := Int.emod_lt_of_pos _ hpos
  constructor
  · intro h
    have := (Int.ediv_emod_unique (a := ((k + 1 : Nat) : Int)) (r := 0)
      (q := (k : Int) / N + 1) hpos).mpr
      ⟨by push_cast; rw [mul_add]; omega, le_refl _, hpos⟩
    exact ⟨this.2, this.1⟩
  · intro h
    have := (Int.ediv_emod_unique (a := ((k + 1 : Nat) : Int)) (r := (k : Int) % N + 1)
      (q := (k : Int) / N) hpos).mpr
      ⟨by push_cast; omega, by omega, by omega⟩
    exact ⟨this.2, this.1⟩

theorem calc_columns_nonneg (c p : Int) : 0 ≤ calc_columns c p := by
  unfold calc_columns
  simp only
  split
  · omega
  · split
    · omega
    · next h1 h2 =>
      have hn : 0 ≤ Int.tdiv p c := by omega
      obtain ⟨n, hn2⟩ := Int.eq_ofNat_of_zero_le hn
      rw [hn2]
      show (0 : Int) ≤ ((n &&& 1 : Nat) : Int)
      exact Int.ofNat_nonneg _

/-- The loop of `meter_area_layout` from its `k`-th pass on, when every port
requests the width `w`: the passes append the cells `(k mod N, k div N)`. -/
theorem meter_area_loop_table (E : Ext) (aw : Int) (w : Nat) (N : Int) (hN : 1 ≤ N)
    (l : List (String × InputPort)) (hw : ∀ e ∈ l, E.size_request e.2 = w)
    (k : Nat) (st : MeterLoop)
    (hcols : (if st.N_COL < 0 then calc_columns ((w : Int) + 6) aw else st.N_COL) = N)
    (hcol : st.col = (k : Int) % N) (hrow : st.row = (k : Int) / N) :
    (meter_area_loop E aw l st).table
      = st.table ++ (l.enumFrom k).map (fun e => (e.2.1, (e.1 : Int) % N, (e.1 : Int) / N)) := by
  induction l generalizing k st with
  | nil => simp [meter_area_loop]
  | cons e rest ih =>
      obtain ⟨name, ip⟩ := e
      have hwe : E.size_request ip = w := hw (name, ip) (List.mem_cons_self _ _)
      have hwr : ∀ e ∈ rest, E.size_request e.2 = w :=
        fun e he => hw e (List.mem_cons_of_mem _ he)
      have hbox : (if (decide (st.box_width ≠ ((E.size_request ip : Nat) : Int) + 6)) = true
          then ((E.size_request ip : Nat) : Int) + 6 else st.box_width) = (w : Int) + 6 := by
        rw [hwe]
        by_cases hb : st.box_width = (w : Int) + 6
        · simp [hb]
        · simp [hb]
      have hncol : (if st.N_COL < 0 then calc_columns
          (if (decide (st.box_width ≠ ((E.size_request ip : Nat) : Int) + 6)) = true
            then ((E.size_request ip : Nat) : Int) + 6 else st.box_width) aw else st.N_COL) = N := by
        rw [hbox]; exact hcols
      have hnext : ∀ (st1 : MeterLoop), st1.N_COL = N →
          (if st1.N_COL < 0 then calc_columns ((w : Int) + 6) aw else st1.N_COL) = N := by
        intro st1 h1
        have : ¬ st1.N_COL < 0 := by omega
        rw [if_neg this]; exact h1
      unfold meter_area_loop
      simp only [hncol]
      have hstep := next_cell k N hN
      split
      · next hge =>
        rw [hcol] at hge
        obtain ⟨hc, hr⟩ := hstep.1 hge
        rw [ih hwr (k + 1) _ (hnext _ rfl) hc.symm (by rw [hr, hrow])]
        simp [List.enumFrom_cons, hcol, hrow]
      · next hge =>
        rw [hcol] at hge
        obtain ⟨hc, hr⟩ := hstep.2 hge
        rw [ih hwr (k + 1) _ (hnext _ rfl) (by rw [hc, hcol]) (by rw [hr, hrow])]
        simp [List.enumFrom_cons, hcol, hrow]

/-- The names the loop attaches are the keys of the map, in order. -/
theorem meter_area_loop_names (E : Ext) (aw : Int) (l : List (String × InputPort))
    (st : MeterLoop) :
    (meter_area_loop E aw l st).table.map (fun c => c.1)
      = st.table.map (fun c => c.1) ++ l.map Prod.fst := by
  induction l generalizing st with
  | nil => simp [meter_area_loop]
  | cons e rest ih =>
      obtain ⟨name, ip⟩ := e
      unfold meter_area_loop
      simp only
      by_cases hge : st.col + 1 ≥ (if st.N_COL < 0 then calc_columns
          (if (decide (st.box_width ≠ ((E.size_request ip : Nat) : Int) + 6)) = true
            then ((E.size_request ip : Nat) : Int) + 6 else st.box_width) aw else st.N_COL)
      · rw [if_pos hge, ih]; simp
      · rw [if_neg hge, ih]; simp

theorem cell_injective (N : Int) :
    Function.Injective (fun k : Nat => ((k : Int) % N, (k : Int) / N)) := by
  intro a b h
  simp only [Prod.mk.injEq] at h
  have ha : (a : Int) % N + N * ((a : Int) / N) = a := Int.emod_add_ediv _ _
  have hb : (b : Int) % N + N * ((b : Int) / N) = b := Int.emod_add_ediv _ _
  rw [h.1, h.2, hb] at ha
  exact_mod_cast ha.symm

/-! ## New tracks -/

end RecorderUI

/-! ## The claims -/

/-- C2 (the code breaks it): with child width 1 and parent width 5 the
quotient is 5 and `calc_columns` returns `5 & 1 = 1`, fewer than the two
columns the comment in its first branch promises. -/
theorem calc_columns_one_column :
    RecorderUI.calc_columns 1 5 = 1 ∧ ¬ (2 ≤ RecorderUI.calc_columns 1 5) := by
  decide

/-- C3 (the code breaks it): with child width 100 and parent width 700 the
quotient is 7 and `calc_columns` returns `7 & 1 = 1`, an odd number, where
the comment on that line asks for an even number of columns. -/
theorem calc_columns_odd :
    Int.tdiv 700 100 = 7 ∧ RecorderUI.calc_columns 100 700 = 1
      ∧ RecorderUI.calc_columns 100 700 % 2 = 1 := by
  decide

/-- C4: `start_updating` always returns; afterwards the keys of
`_input_ports` are exactly the names of the audio and MIDI input ports of the
engine, whatever the map held before, and each entry carries its key as
port name and the data type MIDI when the name is a MIDI port, AUDIO
otherwise. -/
theorem start_updating_input_ports (E : RecorderUI.Ext) (s : RecorderUI)
    (aip mip : List String) :
    ∃ s1, s.start_updating E aip mip = some s1 ∧
      (∀ name, name ∈ s1._input_ports.map Prod.fst ↔ name ∈ aip ∨ name ∈ mip) ∧
      (∀ name ip, RecorderUI.map_find s1._input_ports name = some ip →
        ip._port_name = name ∧
        ip._dt = if name ∈ mip then RecorderUI.DataType.MIDI else RecorderUI.DataType.AUDIO) := by
  have h0 : (if s._input_ports.length ≠ 0 then s.stop_updating else s)._input_ports = [] := by
    split
    · rfl
    · next h => simpa using h
  obtain ⟨s1, hs1, hv1⟩ := RecorderUI.add_input_ports_keeps E RecorderUI.DataType.AUDIO aip
    (if s._input_ports.length ≠ 0 then s.stop_updating else s)
  obtain ⟨s2, hs2, hv2⟩ := RecorderUI.add_input_ports_keeps E RecorderUI.DataType.MIDI mip s1
  have hview : ∀ k, (RecorderUI.map_find s2._input_ports k).map (fun ip => (ip._dt, ip._port_name))
      = if k ∈ mip then some (RecorderUI.DataType.MIDI, k)
        else if k ∈ aip then some (RecorderUI.DataType.AUDIO, k) else none := by
    intro k
    rw [hv2 k, hv1 k, h0]
    simp [RecorderUI.map_find]
  refine ⟨{ RecorderUI.meter_area_layout E s2 with _fast_screen_update_connection := true },
    ?_, ?_, ?_⟩
  · simp only [RecorderUI.start_updating, hs1, hs2]
  · intro name
    show name ∈ s2._input_ports.map Prod.fst ↔ _
    rw [RecorderUI.mem_keys_iff_map_find]
    have hk := hview name
    constructor
    · rintro ⟨v, hv⟩
      rw [hv] at hk
      by_cases hm : name ∈ mip
      · exact Or.inr hm
      · by_cases ha : name ∈ aip
        · exact Or.inl ha
        · simp [hm, ha] at hk
    · intro h
      cases hf : RecorderUI.map_find s2._input_ports name with
      | some v => exact ⟨v, rfl⟩
      | none =>
          rw [hf] at hk
          rcases h with h | h
          · by_cases hm : name ∈ mip <;> simp [hm, h] at hk
          · simp [h] at hk
  · intro name ip hf
    have hf2 : RecorderUI.map_find s2._input_ports name = some ip := hf
    have hk := hview name
    rw [hf2] at hk
    by_cases hm : name ∈ mip
    · simp [hm] at hk
      simp [hm, hk.1, hk.2]
    · by_cases ha : name ∈ aip
      · simp [hm, ha] at hk
        simp [hm, hk.1, hk.2]
      · simp [hm, ha] at hk

/-- C4 at a concrete input: the engine reports the audio ports in2, in1 and
the MIDI ports m1, in1 to a window that already shows three ports. -/
theorem start_updating_input_ports_witness :
    ∃ s1, demo_state.start_updating demo_ext ["in2", "in1"] ["m1", "in1"] = some s1 ∧
      (∀ name, name ∈ s1._input_ports.map Prod.fst ↔
        name ∈ ["in2", "in1"] ∨ name ∈ ["m1", "in1"]) := by
  obtain ⟨s1, h1, h2, _⟩ :=
    start_updating_input_ports demo_ext demo_state ["in2", "in1"] ["m1", "in1"]
  exact ⟨s1, h1, h2⟩

/-- C5: when every port of `_input_ports` requests the same width `w`,
`meter_area_layout` attaches the ports once each, in the order of the map;
and when `N = calc_columns (w + 6, width of the meter area)` is at least 1,
the `k`-th port sits at column `k mod N` and row `k div N`, no two ports
share a cell, and every column index lies in `[0, N)`. -/
theorem meter_area_layout_cells (E : RecorderUI.Ext) (s : RecorderUI) (w : Nat)
    (hw : ∀ e ∈ s._input_ports, E.size_request e.2 = w) :
    (s.meter_area_layout E)._meter_table.map (fun c => c.1) = s._input_ports.map Prod.fst
    ∧ (1 ≤ RecorderUI.calc_columns ((w : Int) + 6) s._meter_area_width →
        (s.meter_area_layout E)._meter_table
          = s._input_ports.enum.map (fun e =>
              (e.2.1, (e.1 : Int) % RecorderUI.calc_columns ((w : Int) + 6) s._meter_area_width,
                (e.1 : Int) / RecorderUI.calc_columns ((w : Int) + 6) s._meter_area_width))
        ∧ ((s.meter_area_layout E)._meter_table.map (fun c => c.2)).Nodup
        ∧ ∀ c ∈ (s.meter_area_layout E)._meter_table,
            0 ≤ c.2.1 ∧ c.2.1 < RecorderUI.calc_columns ((w : Int) + 6) s._meter_area_width) := by
  have htab : ∀ N : Int, 1 ≤ N → N = RecorderUI.calc_columns ((w : Int) + 6) s._meter_area_width →
      (s.meter_area_layout E)._meter_table
        = s._input_ports.enum.map (fun e => (e.2.1, (e.1 : Int) % N, (e.1 : Int) / N)) := by
    intro N hN hNe
    simp only [RecorderUI.meter_area_layout]
    rw [RecorderUI.meter_area_loop_table E s._meter_area_width w N hN s._input_ports hw 0 _
      (by simp [hNe]) (by simp) (by simp)]
    simp [List.enum]
  refine ⟨?_, ?_⟩
  · simp only [RecorderUI.meter_area_layout]
    rw [RecorderUI.meter_area_loop_names]
    simp
  · intro hN
    have ht := htab _ hN rfl
    refine ⟨ht, ?_, ?_⟩
    · rw [ht, List.map_map]
      have : ((fun c : String × Int × Int => c.2) ∘ fun e : Nat × String × RecorderUI.InputPort =>
          (e.2.1, (e.1 : Int) % RecorderUI.calc_columns ((w : Int) + 6) s._meter_area_width,
            (e.1 : Int) / RecorderUI.calc_columns ((w : Int) + 6) s._meter_area_width))
          = (fun k : Nat => ((k : Int) % RecorderUI.calc_columns ((w : Int) + 6) s._meter_area_width,
              (k : Int) / RecorderUI.calc_columns ((w : Int) + 6) s._meter_area_width)) ∘ Prod.fst := by
        funext e; rfl
      rw [this, ← List.map_map, List.enum_map_fst]
      exact (List.nodup_range _).map (RecorderUI.cell_injective _)
    · intro c hc
      rw [ht, List.mem_map] at hc
      obtain ⟨e, _, rfl⟩ := hc
      exact ⟨Int.emod_nonneg _ (by omega), Int.emod_lt_of_pos _ (by omega)⟩

/-- C5 at a concrete input: three ports of width 100 in an area 350 wide
give 3 columns, and the ports fill the first row. -/
theorem meter_area_layout_cells_witness :
    (∀ e ∈ demo_state._input_ports, demo_ext.size_request e.2 = 100)
    ∧ RecorderUI.calc_columns ((100 : Nat) + 6) demo_state._meter_area_width = 3
    ∧ (demo_state.meter_area_layout demo_ext)._meter_table
        = [("in0", 0, 0), ("in1", 1, 0), ("in2", 2, 0)] :=
  ⟨fun _ _ => rfl, by decide,
    ((meter_area_layout_cells demo_ext demo_state 100 (fun _ _ => rfl)).2 (by decide)).1.trans
      (by decide)⟩

/-- C7 as the code has it: for a pair with `first != max_samplepos` and
`first < second` the ruler ends with the pair that the `rec_extent` calls of
the recorders, taken in list order, leave behind; every recorder is given that
same pair and keeps its route; the pair is `(first, second)` itself when
`rec_extent` does not change what it is handed.  For every other pair
nothing changes. -/
theorem gui_extents_changed_spec (E : RecorderUI.Ext) (s : RecorderUI)
    (first second : RecorderUI.samplepos_t) :
    (first ≠ E.max_samplepos → first < second →
      (s.gui_extents_changed E (first, second))._ruler._left
          = (s._recorders.foldl (fun e i => E.rec_extent i e) (first, second)).1
      ∧ (s.gui_extents_changed E (first, second))._ruler._right
          = (s._recorders.foldl (fun e i => E.rec_extent i e) (first, second)).2
      ∧ (s.gui_extents_changed E (first, second))._recorders.map (fun i => i.route)
          = s._recorders.map (fun i => i.route)
      ∧ (∀ i ∈ (s.gui_extents_changed E (first, second))._recorders,
          i.gui_extents
            = some (s._recorders.foldl (fun e i => E.rec_extent i e) (first, second)))
      ∧ ((∀ i e, E.rec_extent i e = e) →
          s._recorders.foldl (fun e i => E.rec_extent i e) (first, second) = (first, second)))
    ∧ (first = E.max_samplepos ∨ first ≥ second →
        s.gui_extents_changed E (first, second) = s) := by
  constructor
  · intro h1 h2
    have hc : ¬ (first = E.max_samplepos ∨ first ≥ second) := by
      rintro (h | h)
      · exact h1 h
      · exact absurd h2 (not_lt.mpr h)
    simp only [RecorderUI.gui_extents_changed, hc, if_false]
    refine ⟨?_, ?_, ?_, ?_, ?_⟩
    · simp only [RecorderUI.RecRuler.set_gui_extents]
      split
      · next h => exact h.1
      · rfl
    · simp only [RecorderUI.RecRuler.set_gui_extents]
      split
      · next h => exact h.2
      · rfl
    · simp [RecorderUI.TrackRecordAxis.set_gui_extents]
    · intro i hi
      rw [List.mem_map] at hi
      obtain ⟨j, _, rfl⟩ := hi
      rfl
    · intro hid
      induction s._recorders with
      | nil => rfl
      | cons i rest ih => rw [List.foldl_cons, hid]; exact ih
  · intro h
    simp only [RecorderUI.gui_extents_changed, h, if_true]

/-- C7 (amended) at concrete inputs: the pair (5, 10) with two recorders
that show a captured region from 3 to 20, the same pair with recorders that
show none, and the rejected pair (10, 5). -/
theorem gui_extents_changed_spec_witness :
    (5 : Int) ≠ demo_ext.max_samplepos ∧ (5 : Int) < 10
    ∧ (demo_state.gui_extents_changed demo_ext (5, 10))._ruler._left = 3
    ∧ (demo_state.gui_extents_changed demo_ext (5, 10))._ruler._right = 20
    ∧ (demo_state.gui_extents_changed demo_ext_plain (5, 10))._ruler._left = 5
    ∧ demo_state._recorders.foldl (fun e i => demo_ext_plain.rec_extent i e) (5, 10) = (5, 10)
    ∧ demo_state.gui_extents_changed demo_ext (10, 5) = demo_state :=
  ⟨by decide, by decide,
    ((gui_extents_changed_spec demo_ext demo_state 5 10).1 (by decide) (by decide)).1.trans
      (by decide),
    ((gui_extents_changed_spec demo_ext demo_state 5 10).1 (by decide) (by decide)).2.1.trans
      (by decide),
    ((gui_extents_changed_spec demo_ext_plain demo_state 5 10).1 (by decide) (by decide)).1.trans
      (by decide),
    ((gui_extents_changed_spec demo_ext_plain demo_state 5 10).1 (by decide)
      (by decide)).2.2.2.2 (fun _ _ => rfl),
    (gui_extents_changed_spec demo_ext demo_state 10 5).2 (Or.inr (by decide))⟩

/-- C7 as stated fails: the pair (5, 10) is accepted, yet the ruler ends at
(3, 20), the extents widened by the recorders, and not at (5, 10). -/
theorem gui_extents_changed_widened :
    (5 : Int) ≠ demo_ext.max_samplepos ∧ (5 : Int) < 10
    ∧ (demo_state.gui_extents_changed demo_ext (5, 10))._ruler._left = 3
    ∧ (demo_state.gui_extents_changed demo_ext (5, 10))._ruler._right = 20
    ∧ ¬ ((demo_state.gui_extents_changed demo_ext (5, 10))._ruler._left = 5
        ∧ (demo_state.gui_extents_changed demo_ext (5, 10))._ruler._right = 10) := by
  decide

/-- C8: `add_routes (rl)` leaves in `_recorders`, as a multiset, the recorders
held before plus one fresh `TrackRecordAxis` for each element of `rl` that is
a track; routes that are not tracks add nothing. -/
theorem add_routes_recorders (E : RecorderUI.Ext) (s : RecorderUI) (rl : List RecorderUI.Route) :
    ((s.add_routes E rl)._recorders : Multiset RecorderUI.TrackRecordAxis)
      = (s._recorders : Multiset RecorderUI.TrackRecordAxis)
        + (((rl.filter (fun r => r.is_track)).map RecorderUI.TrackRecordAxis.new :
            List RecorderUI.TrackRecordAxis) : Multiset RecorderUI.TrackRecordAxis) := by
  rw [Multiset.coe_add, Multiset.coe_eq_coe]
  simp only [RecorderUI.add_routes, RecorderUI.update_rec_table_layout]
  refine (RecorderUI.list_sort_perm _ _).trans ?_
  rw [RecorderUI.add_routes_foldl]
  exact List.Perm.append_left _
    (((RecorderUI.list_sort_perm E.Sorter rl).filter _).map _)

/-- C9 (the code breaks it): `new_take` returns the state it was given, for
every state, with or without a session; nothing is asked of the editor or
the session. -/
theorem new_take_does_nothing (s : RecorderUI) : s.new_take = s := rfl

/-- C10: for a port `p` of `_input_ports` with at least one connection,
`spill_port (p)` returns, leaves the ports (and so the spill button) and the
dialog list alone, and afterwards `p` is in `_spill_port_names` exactly when
the spill button of `p` is active; the other members are kept; when the
membership of `p` did not change the state is the old one, and when it
changed the state is the result of `update_rec_table_layout` on the new set
(one more layout run). -/
theorem spill_port_connected (E : RecorderUI.Ext) (s : RecorderUI) (p : String)
    (ip : RecorderUI.InputPort)
    (hp : RecorderUI.map_find s._input_ports p = some ip)
    (hcnt : 0 < ip._n_connections) :
    ∃ s1, s.spill_port E p = some s1
      ∧ s1._input_ports = s._input_ports
      ∧ s1.new_track_dialogs = s.new_track_dialogs
      ∧ (p ∈ s1._spill_port_names ↔ ip._spill_button_active = true)
      ∧ (∀ q, q ≠ p → (q ∈ s1._spill_port_names ↔ q ∈ s._spill_port_names))
      ∧ ((p ∈ s._spill_port_names ↔ ip._spill_button_active = true) → s1 = s)
      ∧ (¬ (p ∈ s._spill_port_names ↔ ip._spill_button_active = true) →
          s1 = RecorderUI.update_rec_table_layout E
                { s with _spill_port_names := s1._spill_port_names }
          ∧ s1.group_tabs_dirty = s.group_tabs_dirty + 1) := by
  have hne : ip._n_connections ≠ 0 := by omega
  cases hact : ip._spill_button_active with
  | true =>
      have hsp : ip.spill true = (ip, true) := by
        simp [RecorderUI.InputPort.spill, hne, hact]
      have hmod : RecorderUI.map_modify (fun ip => (ip.spill true).1) s._input_ports p
          = s._input_ports :=
        RecorderUI.map_modify_fixed _ _ _ ip hp (by rw [hsp])
      have hrun : s.spill_port E p = some (RecorderUI.spill_port_update E s p true) := by
        simp only [RecorderUI.spill_port, hp, RecorderUI.InputPort.spilled, hact, if_true, hsp,
          Bool.not_true, hmod]
        rfl
      refine ⟨_, hrun, ?_⟩
      simp only [RecorderUI.spill_port_update, if_true]
      by_cases hin : p ∈ s._spill_port_names
      · have h2 : (RecorderUI.set_insert s._spill_port_names p) = (s._spill_port_names, false) := by
          simp [RecorderUI.set_insert, hin]
        simp [h2, hin]
      · have h2 : (RecorderUI.set_insert s._spill_port_names p).2 = true :=
          (RecorderUI.set_insert_new _ _).mpr hin
        simp only [h2, if_true]
        refine ⟨rfl, rfl, ?_, ?_, ?_, ?_⟩
        · show p ∈ (RecorderUI.set_insert s._spill_port_names p).1 ↔ _
          simp [RecorderUI.mem_set_insert]
        · intro q hq
          show q ∈ (RecorderUI.set_insert s._spill_port_names p).1 ↔ _
          simp [RecorderUI.mem_set_insert, hq]
        · intro h
          exact absurd (h.mpr trivial) hin
        · intro _
          exact ⟨rfl, rfl⟩
  | false =>
      have hrun : s.spill_port E p = some (RecorderUI.spill_port_update E s p false) := by
        simp [RecorderUI.spill_port, hp, RecorderUI.InputPort.spilled, hact]
      refine ⟨_, hrun, ?_⟩
      simp only [RecorderUI.spill_port_update, Bool.false_eq_true, if_false]
      by_cases hin : p ∈ s._spill_port_names
      · have h2 : decide (0 ≠ (RecorderUI.set_erase s._spill_port_names p).2) = true := by
          simpa using (RecorderUI.set_erase_count _ _).mpr hin
        simp only [h2, if_true]
        refine ⟨rfl, rfl, ?_, ?_, ?_, ?_⟩
        · show p ∈ (RecorderUI.set_erase s._spill_port_names p).1 ↔ _
          simp [RecorderUI.mem_set_erase]
        · intro q hq
          show q ∈ (RecorderUI.set_erase s._spill_port_names p).1 ↔ _
          simp [RecorderUI.mem_set_erase, hq]
        · intro h
          exact absurd (h.mp hin) (by simp)
        · intro _
          exact ⟨rfl, rfl⟩
      · have h2 : (RecorderUI.set_erase s._spill_port_names p) = (s._spill_port_names, 0) := by
          simp [RecorderUI.set_erase, hin]
        simp [h2, hin]

/-- C10 at a concrete input: the port in2 has one connection and an active
spill button; it enters the spill set and the table is laid out again. -/
theorem spill_port_connected_witness :
    RecorderUI.map_find demo_state._input_ports "in2" = some demo_in2
    ∧ 0 < demo_in2._n_connections
    ∧ ∃ s1, demo_state.spill_port demo_ext "in2" = some s1
        ∧ "in2" ∈ s1._spill_port_names
        ∧ s1.group_tabs_dirty = demo_state.group_tabs_dirty + 1 := by
  refine ⟨by decide, by decide, ?_⟩
  obtain ⟨s1, h1, _, _, h4, _, _, h7⟩ :=
    spill_port_connected demo_ext demo_state "in2" demo_in2 (by decide) (by decide)
  exact ⟨s1, h1, h4.mpr rfl, (h7 (by decide)).2⟩

/-- C11: for a change that contains `order` and not `hidden`, when no
recorder of `_recorders` compares less than one in front of it (the list is
in `TrackRecordAxisSorter` order), and whenever sorting gives the list back,
the state is left as it is: `_recorders`, `_visible_recorders` and the
layout count are unchanged; when sorting gives another list, the result is
`update_rec_table_layout` run on the sorted list (one more layout run). -/
theorem presentation_info_changed_order (E : RecorderUI.Ext) (s : RecorderUI)
    (what_changed : List RecorderUI.Property)
    (hh : RecorderUI.Property.hidden ∉ what_changed)
    (ho : RecorderUI.Property.order ∈ what_changed) :
    (List.Sorted (fun a b => RecorderUI.TrackRecordAxisSorter E b a = false) s._recorders →
        s.presentation_info_changed E what_changed = s)
    ∧ (RecorderUI.list_sort (RecorderUI.TrackRecordAxisSorter E) s._recorders = s._recorders →
        s.presentation_info_changed E what_changed = s)
    ∧ (RecorderUI.list_sort (RecorderUI.TrackRecordAxisSorter E) s._recorders ≠ s._recorders →
        s.presentation_info_changed E what_changed
          = RecorderUI.update_rec_table_layout E { s with
              _recorders := RecorderUI.list_sort (RecorderUI.TrackRecordAxisSorter E) s._recorders }
        ∧ (s.presentation_info_changed E what_changed).group_tabs_dirty
          = s.group_tabs_dirty + 1) := by
  have h1 : what_changed.contains RecorderUI.Property.hidden = false := by
    simpa using hh
  have h2 : what_changed.contains RecorderUI.Property.order = true := by
    simpa using ho
  have hsame : RecorderUI.list_sort (RecorderUI.TrackRecordAxisSorter E) s._recorders
      = s._recorders → s.presentation_info_changed E what_changed = s := by
    intro hsort
    simp only [RecorderUI.presentation_info_changed, h1, h2, Bool.false_eq_true, if_false,
      if_true, hsort, ne_eq, not_true_eq_false]
  refine ⟨fun hs => hsame (List.Sorted.insertionSort_eq hs), hsame, ?_⟩
  intro hne
  have hrun : s.presentation_info_changed E what_changed
      = RecorderUI.update_rec_table_layout E { s with
          _recorders := RecorderUI.list_sort (RecorderUI.TrackRecordAxisSorter E) s._recorders } := by
    simp only [RecorderUI.presentation_info_changed, h1, h2, Bool.false_eq_true, if_false,
      if_true, ne_eq, hne, not_false_eq_true]
  exact ⟨hrun, by rw [hrun]; rfl⟩

/-- C11 at concrete inputs: two recorders in id order are left alone, the
same two in the other order are sorted and laid out again. -/
theorem presentation_info_changed_order_witness :
    demo_state.presentation_info_changed demo_ext [RecorderUI.Property.order] = demo_state
    ∧ (demo_state_swapped.presentation_info_changed demo_ext
        [RecorderUI.Property.order]).group_tabs_dirty = demo_state_swapped.group_tabs_dirty + 1 :=
  ⟨(presentation_info_changed_order demo_ext demo_state [RecorderUI.Property.order]
      (by decide) (by decide)).1 (by decide),
    ((presentation_info_changed_order demo_ext demo_state_swapped [RecorderUI.Property.order]
      (by decide) (by decide)).2.2 (by decide)).2⟩

/-- C12: when the truncated quotient of the parent width by a positive
child width is 3 or 4, `calc_columns` returns that quotient. -/
theorem calc_columns_three_or_four (child_width parent_width : Int)
    (_hc : 0 < child_width)
    (hq : Int.tdiv parent_width child_width = 3 ∨ Int.tdiv parent_width child_width = 4) :
    RecorderUI.calc_columns child_width parent_width = Int.tdiv parent_width child_width := by
  unfold RecorderUI.calc_columns
  rcases hq with h | h <;> simp [h]

/-- C12 at a concrete input: a child width of 106 in 350 gives 3 columns. -/
theorem calc_columns_three_or_four_witness :
    RecorderUI.calc_columns 106 350 = 3 :=
  calc_columns_three_or_four 106 350 (by decide) (Or.inl (by decide))

/-- C13 (the code breaks it): at 48000 samples per second, a ruler 1000
pixels wide with labels 70 pixels wide over the extents 0 to 48000 has
9 labels, and `48000 / 9 / 48000` is 0 in integer division, so
`time_granularity` is 0 and `lower` divides by it; a ruler of width 0 has
0 labels and `time_span / n_labels` divides by zero.  Over 100 seconds the
same ruler gets a grid of 11 seconds. -/
theorem render_divides_by_zero :
    RecorderUI.RecRuler.n_labels 1000 70 = 9
    ∧ RecorderUI.RecRuler.time_granularity 48000 9 48000 = 0
    ∧ demo_ruler.render (some 48000) 1000 70 = RecorderUI.RenderOutcome.division_by_zero
    ∧ RecorderUI.RecRuler.n_labels 0 70 = 0
    ∧ demo_ruler.render (some 48000) 0 70 = RecorderUI.RenderOutcome.division_by_zero
    ∧ ({ demo_ruler with _right := 4800000 } : RecorderUI.RecRuler).render (some 48000) 1000 70
        = RecorderUI.RenderOutcome.grid 9 528000 0 := by
  have h9 : RecorderUI.RecRuler.n_labels 1000 70 = 9 := by
    simp only [RecorderUI.RecRuler.n_labels]
    norm_num [Int.floor_eq_iff]
  have h0 : RecorderUI.RecRuler.n_labels 0 70 = 0 := by
    simp [RecorderUI.RecRuler.n_labels]
  have hg : RecorderUI.RecRuler.time_granularity 48000 9 48000 = 0 := by
    simp only [RecorderUI.RecRuler.time_granularity, Int.ceil_intCast]
    decide
  have hg2 : RecorderUI.RecRuler.time_granularity 4800000 9 48000 = 528000 := by
    simp only [RecorderUI.RecRuler.time_granularity, Int.ceil_intCast]
    decide
  refine ⟨h9, hg, ?_, h0, ?_, ?_⟩
  · simp [RecorderUI.RecRuler.render, demo_ruler, h9, hg]
  · simp [RecorderUI.RecRuler.render, demo_ruler, h0]
  · simp [RecorderUI.RecRuler.render, demo_ruler, h9, hg2]

/-- C14 (the code breaks it): with the window mapped and the engine
reporting a MIDI port m1 that has no entry in `_input_ports`, the MIDI loop
dereferences the `end ()` iterator; an audio port a9 without entry is
skipped, and a MIDI port that has an entry is updated. -/
theorem update_meters_midi_not_found :
    RecorderUI.map_find demo_state._input_ports "m1" = none
    ∧ demo_state.update_meters demo_ext [] ["m1"] true false (0, 0) = none
    ∧ demo_state.update_meters demo_ext ["a9"] [] true false (0, 0) = some (demo_state, [])
    ∧ demo_state.update_meters demo_ext [] ["in1"] true false (0, 0)
        = some (demo_state, [RecorderUI.MeterUpdate.midi_activity "in1",
            RecorderUI.MeterUpdate.midi_events "in1"]) := by
  decide
